import Mathlib

/-!
Verification of the latent-factor rating-prediction core of the
Movie-Recommendation-System repository (notebooks `Collaborative.ipynb` and
`Hybrid.ipynb`).  The notebooks call into the Surprise library for the SVD
model and into sklearn for the metric functions; the glue code (binarization,
top-N recommendation, hybrid scoring, evaluation loops) is translated directly
from the notebook cells, while the model internals are modelled from the
specification of the core.  All real-valued quantities are embedded as exact
rationals `ℚ`.
-/

namespace MovieRec

/-- An observed rating triple `(userId, movieId, rating)`, the rows of
`cleaned_movie_ratings.csv` that the collaborative notebook feeds to
`Dataset.load_from_df(df[['userId', 'movieId', 'rating']], reader)`. -/
structure Rating where
  userId : Nat
  movieId : Nat
  rating : ℚ
deriving DecidableEq, Repr

/-- Modelled from the spec: the trained `LatentFactorModel` (§3) — global bias
μ, per-user bias `b_u`, per-item bias `b_i`, user factors `P`, item factors
`Q`, together with the sets of users/items known from the training partition.
The concrete implementation is inside the third-party Surprise library
(`surprise.prediction_algorithms.matrix_factorization.SVD`); only its callers
(`svd.fit`, `svd.predict`) appear in `src/Collaborative.ipynb`. -/
structure SVDModel where
  mu : ℚ
  bu : Nat → ℚ
  bi : Nat → ℚ
  pu : Nat → List ℚ
  qi : Nat → List ℚ
  knownUsers : List Nat
  knownItems : List Nat

/-- Dot product of two factor vectors. -/
def dot : List ℚ → List ℚ → ℚ
  | a :: as, b :: bs => a * b + dot as bs
  | _, _ => 0

/-- Lower end of the configured rating scale: `Reader(rating_scale=(0.5, 5.0))`. -/
def scaleLo : ℚ := 1 / 2

/-- Upper end of the configured rating scale. -/
def scaleHi : ℚ := 5

/-- Clipping to the configured rating scale `[0.5, 5.0]`. -/
def clip (x : ℚ) : ℚ := min scaleHi (max scaleLo x)

/-- Modelled from the spec: the unclipped prediction
`r̂ = μ + b_u[user] + b_i[item] + dot(P[user], Q[item])` with the cold-start
fallback policy of §4.2 — an unknown user contributes `b_u = 0` and a zero
factor vector, symmetrically for items.  Total: unknown entities never raise. -/
def rawPredict (m : SVDModel) (u i : Nat) : ℚ :=
  m.mu
    + (if u ∈ m.knownUsers then m.bu u else 0)
    + (if i ∈ m.knownItems then m.bi i else 0)
    + (if u ∈ m.knownUsers ∧ i ∈ m.knownItems then dot (m.pu u) (m.qi i) else 0)

/-- Modelled from the spec: `predict(userId, itemId)` — the raw latent-factor
prediction clipped to the configured rating scale (§4.2, a required contract). -/
def predict (m : SVDModel) (u i : Nat) : ℚ := clip (rawPredict m u i)

theorem scaleLo_le_scaleHi : scaleLo ≤ scaleHi := by
  simp [scaleLo, scaleHi]; norm_num

theorem clip_mem (x : ℚ) : scaleLo ≤ clip x ∧ clip x ≤ scaleHi :=
  ⟨le_min scaleLo_le_scaleHi (le_max_left _ _), min_le_left _ _⟩

/-- C1: for a user and item known to the model, `predict` returns
`μ + b_u[u] + b_i[i] + dot(P[u], Q[i])` clipped to the rating scale, and for
every (user, item) pair whatsoever the prediction lies in `[0.5, 5.0]`. -/
theorem predict_known_eq_and_in_scale (m : SVDModel) (u i : Nat)
    (hu : u ∈ m.knownUsers) (hi : i ∈ m.knownItems) :
    predict m u i = clip (m.mu + m.bu u + m.bi i + dot (m.pu u) (m.qi i)) ∧
    ∀ u' i' : Nat, scaleLo ≤ predict m u' i' ∧ predict m u' i' ≤ scaleHi := by
  refine ⟨?_, fun u' i' => clip_mem _⟩
  simp [predict, rawPredict, hu, hi]

/-- A concrete trained model used to instantiate the theorems: user 1 and
item 2 are known, everything else is unknown. -/
def m₀ : SVDModel where
  mu := 3
  bu := fun u => if u = 1 then 1 / 4 else 0
  bi := fun i => if i = 2 then -1 / 2 else 0
  pu := fun u => if u = 1 then [1 / 2, 1 / 4] else [0, 0]
  qi := fun i => if i = 2 then [1, -2] else [0, 0]
  knownUsers := [1]
  knownItems := [2]

theorem predict_known_eq_and_in_scale_witness :
    (1 : Nat) ∈ m₀.knownUsers ∧ (2 : Nat) ∈ m₀.knownItems ∧
    (predict m₀ 1 2 = clip (m₀.mu + m₀.bu 1 + m₀.bi 2 + dot (m₀.pu 1) (m₀.qi 2)) ∧
      ∀ u' i' : Nat, scaleLo ≤ predict m₀ u' i' ∧ predict m₀ u' i' ≤ scaleHi) :=
  ⟨by decide, by decide,
    predict_known_eq_and_in_scale m₀ 1 2 (by decide) (by decide)⟩

/-- C2: fallback policy for unknown entities — unknown user gives
`clip (μ + b_i[i])`, unknown item gives `clip (μ + b_u[u])`, both unknown give
`clip μ`; `predict` is a total function, so unknown entities never error. -/
theorem predict_fallback (m : SVDModel) (u i : Nat) :
    (u ∉ m.knownUsers → i ∈ m.knownItems → predict m u i = clip (m.mu + m.bi i)) ∧
    (u ∈ m.knownUsers → i ∉ m.knownItems → predict m u i = clip (m.mu + m.bu u)) ∧
    (u ∉ m.knownUsers → i ∉ m.knownItems → predict m u i = clip m.mu) := by
  refine ⟨fun hu hi => ?_, fun hu hi => ?_, fun hu hi => ?_⟩ <;>
    simp [predict, rawPredict, hu, hi]

theorem predict_fallback_witness :
    (predict m₀ 7 2 = clip (m₀.mu + m₀.bi 2)) ∧
    (predict m₀ 1 9 = clip (m₀.mu + m₀.bu 1)) ∧
    (predict m₀ 7 9 = clip m₀.mu) :=
  ⟨(predict_fallback m₀ 7 2).1 (by decide) (by decide),
   (predict_fallback m₀ 1 9).2.1 (by decide) (by decide),
   (predict_fallback m₀ 7 9).2.2 (by decide) (by decide)⟩

/-- Modelled from the spec: `TrainingConfig` (§3) — epochs, learning rate η,
regularization λ, latent dimension k, random seed. -/
structure TrainingConfig where
  epochs : Nat
  eta : ℚ
  lam : ℚ
  k : Nat
  seed : Nat
deriving DecidableEq, Repr

/-- Mutable parameter state of the SGD loop: μ, b_u, b_i, P, Q. -/
structure FitState where
  mu : ℚ
  bu : Nat → ℚ
  bi : Nat → ℚ
  pu : Nat → List ℚ
  qi : Nat → List ℚ

/-- Pointwise vector sum (factors have the common length k). -/
def vecAdd (a b : List ℚ) : List ℚ := List.zipWith (· + ·) a b

/-- Pointwise vector difference. -/
def vecSub (a b : List ℚ) : List ℚ := List.zipWith (· - ·) a b

/-- Scalar multiple of a factor vector. -/
def vecSmul (c : ℚ) (a : List ℚ) : List ℚ := a.map (c * ·)

/-- Modelled from the spec (§4.3): the SGD update for one training record
`(u, i, r)`.  `pOld` and `qOld` are bound before any write, so the `Q[i]`
update reads the pre-update `P[u]` exactly as the spec requires. -/
def sgdStep (cfg : TrainingConfig) (s : FitState) (r : Rating) : FitState :=
  let u := r.userId
  let i := r.movieId
  let pOld := s.pu u
  let qOld := s.qi i
  let pred := s.mu + s.bu u + s.bi i + dot pOld qOld
  let err := r.rating - pred
  { mu := s.mu + cfg.eta * err
    bu := Function.update s.bu u (s.bu u + cfg.eta * (err - cfg.lam * s.bu u))
    bi := Function.update s.bi i (s.bi i + cfg.eta * (err - cfg.lam * s.bi i))
    pu := Function.update s.pu u
      (vecAdd pOld (vecSmul cfg.eta (vecSub (vecSmul err qOld) (vecSmul cfg.lam pOld))))
    qi := Function.update s.qi i
      (vecAdd qOld (vecSmul cfg.eta (vecSub (vecSmul err pOld) (vecSmul cfg.lam qOld)))) }

/-- One epoch: a single left-to-right pass over the (already shuffled)
training order. -/
def runEpoch (cfg : TrainingConfig) (order : List Rating) (s : FitState) : FitState :=
  order.foldl (sgdStep cfg) s

/-- Modelled from the spec: the seeded shuffle — a deterministic permutation
of the training list selected by the seed, fixed for the whole fit. -/
def seededShuffle (seed : Nat) (l : List Rating) : List Rating :=
  l.permutations.getD (seed % l.permutations.length) l

/-- Modelled from the spec: factor initialization — small deterministic
values derived from the seed (biases start at 0). -/
def initFactor (seed k id0 : Nat) : List ℚ :=
  (List.range k).map (fun j => (((seed + 31 * id0 + 7 * j) % 100 : Nat) : ℚ) / 1000)

/-- Modelled from the spec (§3 lifecycle): biases initialized to 0, factors
to small seed-determined values. -/
def initState (cfg : TrainingConfig) : FitState where
  mu := 0
  bu := fun _ => 0
  bi := fun _ => 0
  pu := fun u => initFactor cfg.seed cfg.k u
  qi := fun i => initFactor (cfg.seed + 1) cfg.k i

/-- The fixed-epoch training loop (`for epoch in range(epochs)`): no early
stopping, simply `epochs` successive passes. -/
def trainLoop (cfg : TrainingConfig) (order : List Rating) : Nat → FitState → FitState
  | 0, s => s
  | n + 1, s => trainLoop cfg order n (runEpoch cfg order s)

/-- Modelled from the spec: `fit(train, config)` — shuffle once with the seed,
initialize, run exactly `config.epochs` epochs, freeze the parameters into a
model whose known users/items are those of the training partition. -/
def fit (train : List Rating) (cfg : TrainingConfig) : SVDModel :=
  let order := seededShuffle cfg.seed train
  let s := trainLoop cfg order cfg.epochs (initState cfg)
  { mu := s.mu, bu := s.bu, bi := s.bi, pu := s.pu, qi := s.qi
    knownUsers := (train.map Rating.userId).dedup
    knownItems := (train.map Rating.movieId).dedup }

theorem seededShuffle_perm (seed : Nat) (l : List Rating) :
    (seededShuffle seed l).Perm l := by
  have hmem : l ∈ l.permutations := List.mem_permutations.mpr (List.Perm.refl l)
  have hne : l.permutations ≠ [] := List.ne_nil_of_mem hmem
  have hlt : seed % l.permutations.length < l.permutations.length :=
    Nat.mod_lt _ (List.length_pos.mpr hne)
  have hx : seededShuffle seed l ∈ l.permutations := by
    rw [seededShuffle, List.getD_eq_getElem _ _ hlt]
    exact List.getElem_mem hlt
  exact List.mem_permutations.mp hx

theorem trainLoop_eq_iterate (cfg : TrainingConfig) (order : List Rating)
    (n : Nat) (s : FitState) :
    trainLoop cfg order n s = (runEpoch cfg order)^[n] s := by
  induction n generalizing s with
  | zero => rfl
  | succ m ih =>
      rw [trainLoop, ih, Function.iterate_succ_apply]

theorem vec_update_getD (c e l : ℚ) (a b : List ℚ) (j : Nat)
    (ha : j < a.length) (hb : j < b.length) :
    (vecAdd a (vecSmul c (vecSub (vecSmul e b) (vecSmul l a)))).getD j 0
      = a.getD j 0 + c * (e * b.getD j 0 - l * a.getD j 0) := by
  have hj : j < (vecAdd a (vecSmul c (vecSub (vecSmul e b) (vecSmul l a)))).length := by
    simp [vecAdd, vecSub, vecSmul]
    omega
  rw [List.getD_eq_getElem _ _ hj, List.getD_eq_getElem _ _ ha, List.getD_eq_getElem _ _ hb]
  simp [vecAdd, vecSub, vecSmul]

/-- C3: the trainer — `fit` performs exactly `config.epochs` epochs, each
epoch is one left fold over the seeded shuffle of the training set (which is
a permutation of it, hence one pass over all training ratings), and each
record update satisfies the stated SGD rules, the `Q[i]` rule reading the
pre-update `P[u]`. -/
theorem sgd_trainer_spec (cfg : TrainingConfig) (train : List Rating)
    (s : FitState) (r : Rating) (n j : Nat) (err : ℚ)
    (herr : err = r.rating
      - (s.mu + s.bu r.userId + s.bi r.movieId + dot (s.pu r.userId) (s.qi r.movieId)))
    (hp : j < (s.pu r.userId).length) (hq : j < (s.qi r.movieId).length) :
    (fit train cfg).mu
        = ((runEpoch cfg (seededShuffle cfg.seed train))^[cfg.epochs] (initState cfg)).mu ∧
    trainLoop cfg (seededShuffle cfg.seed train) n s
        = (runEpoch cfg (seededShuffle cfg.seed train))^[n] s ∧
    (seededShuffle cfg.seed train).Perm train ∧
    runEpoch cfg (seededShuffle cfg.seed train) s
        = (seededShuffle cfg.seed train).foldl (sgdStep cfg) s ∧
    (sgdStep cfg s r).mu = s.mu + cfg.eta * err ∧
    (sgdStep cfg s r).bu r.userId = s.bu r.userId + cfg.eta * (err - cfg.lam * s.bu r.userId) ∧
    (sgdStep cfg s r).bi r.movieId = s.bi r.movieId + cfg.eta * (err - cfg.lam * s.bi r.movieId) ∧
    ((sgdStep cfg s r).pu r.userId).getD j 0
        = (s.pu r.userId).getD j 0
          + cfg.eta * (err * (s.qi r.movieId).getD j 0 - cfg.lam * (s.pu r.userId).getD j 0) ∧
    ((sgdStep cfg s r).qi r.movieId).getD j 0
        = (s.qi r.movieId).getD j 0
          + cfg.eta * (err * (s.pu r.userId).getD j 0 - cfg.lam * (s.qi r.movieId).getD j 0) := by
  subst herr
  refine ⟨?_, trainLoop_eq_iterate cfg _ n s, seededShuffle_perm cfg.seed train, rfl,
    ?_, ?_, ?_, ?_, ?_⟩
  · rw [fit, trainLoop_eq_iterate]
  · simp [sgdStep]
  · simp [sgdStep]
  · simp [sgdStep]
  · simp only [sgdStep, Function.update_same]
    exact vec_update_getD _ _ _ _ _ j hp hq
  · simp only [sgdStep, Function.update_same]
    exact vec_update_getD _ _ _ _ _ j hq hp

/-- A concrete three-record training set for instantiating the trainer
theorems. -/
def train₀ : List Rating := [⟨1, 2, 5⟩, ⟨1, 3, 3⟩, ⟨2, 2, 4⟩]

/-- A concrete training configuration. -/
def cfg₀ : TrainingConfig := ⟨2, 1/10, 1/100, 2, 0⟩

theorem sgd_trainer_spec_witness :
    (fit train₀ cfg₀).mu
        = ((runEpoch cfg₀ (seededShuffle cfg₀.seed train₀))^[cfg₀.epochs] (initState cfg₀)).mu ∧
    (seededShuffle cfg₀.seed train₀).Perm train₀ ∧
    ((sgdStep cfg₀ (initState cfg₀) ⟨1, 2, 5⟩).qi 2).getD 0 0
        = ((initState cfg₀).qi 2).getD 0 0
          + cfg₀.eta * (((5 : ℚ)
              - ((initState cfg₀).mu + (initState cfg₀).bu 1 + (initState cfg₀).bi 2
                + dot ((initState cfg₀).pu 1) ((initState cfg₀).qi 2)))
                  * ((initState cfg₀).pu 1).getD 0 0
            - cfg₀.lam * ((initState cfg₀).qi 2).getD 0 0) :=
  ⟨(sgd_trainer_spec cfg₀ train₀ (initState cfg₀) ⟨1, 2, 5⟩ 2 0 _ rfl
      (by decide) (by decide)).1,
   (sgd_trainer_spec cfg₀ train₀ (initState cfg₀) ⟨1, 2, 5⟩ 2 0 _ rfl
      (by decide) (by decide)).2.2.1,
   (sgd_trainer_spec cfg₀ train₀ (initState cfg₀) ⟨1, 2, 5⟩ 2 0 _ rfl
      (by decide) (by decide)).2.2.2.2.2.2.2.2⟩

/-- C4: determinism — two `fit` calls with identical dataset and config (the
seed is part of the config) produce identical parameters and hence the same
prediction for every (user, item) pair; in this embedding the seeded shuffle
and initialization are pure functions of the seed, so the whole of `fit` is a
pure function of its arguments. -/
theorem fit_deterministic (train₁ train₂ : List Rating)
    (cfg₁ cfg₂ : TrainingConfig) (u i : Nat)
    (ht : train₁ = train₂) (hc : cfg₁ = cfg₂) :
    fit train₁ cfg₁ = fit train₂ cfg₂ ∧
    predict (fit train₁ cfg₁) u i = predict (fit train₂ cfg₂) u i := by
  subst ht; subst hc; exact ⟨rfl, rfl⟩

theorem fit_deterministic_witness :
    fit train₀ cfg₀ = fit train₀ cfg₀ ∧
    predict (fit train₀ cfg₀) 1 2 = predict (fit train₀ cfg₀) 1 2 :=
  fit_deterministic train₀ train₀ cfg₀ cfg₀ 1 2 rfl rfl

/-- Binarization from the Collaborative.ipynb evaluation cell:
`[1 if r >= threshold else 0 for r in ...]`. -/
def binarize (threshold : ℚ) (xs : List ℚ) : List Bool :=
  xs.map (fun r => if threshold ≤ r then true else false)

/-- True positives of the binarized label lists. -/
def countTP (yt yp : List Bool) : Nat :=
  ((yt.zip yp).filter (fun p => p.1 && p.2)).length

/-- False positives. -/
def countFP (yt yp : List Bool) : Nat :=
  ((yt.zip yp).filter (fun p => !p.1 && p.2)).length

/-- False negatives. -/
def countFN (yt yp : List Bool) : Nat :=
  ((yt.zip yp).filter (fun p => p.1 && !p.2)).length

/-- Modelled from the spec: sklearn `accuracy_score` — the fraction of
positions where the binarized labels agree. -/
def accuracy_score (yt yp : List Bool) : ℚ :=
  (((yt.zip yp).filter (fun p => p.1 == p.2)).length : ℚ) / (yt.length : ℚ)

/-- Modelled from the spec: sklearn `precision_score` — TP/(TP+FP), with the
single fixed documented zero convention (zero denominator reports 0,
sklearn's default `zero_division` behaviour). -/
def precision_score (yt yp : List Bool) : ℚ :=
  if countTP yt yp + countFP yt yp = 0 then 0
  else (countTP yt yp : ℚ) / ((countTP yt yp : ℚ) + (countFP yt yp : ℚ))

/-- Modelled from the spec: sklearn `recall_score` — TP/(TP+FN), same zero
convention. -/
def recall_score (yt yp : List Bool) : ℚ :=
  if countTP yt yp + countFN yt yp = 0 then 0
  else (countTP yt yp : ℚ) / ((countTP yt yp : ℚ) + (countFN yt yp : ℚ))

/-- Modelled from the spec: sklearn `f1_score` — 2·TP/(2·TP+FP+FN), same zero
convention. -/
def f1_score (yt yp : List Bool) : ℚ :=
  if 2 * countTP yt yp + countFP yt yp + countFN yt yp = 0 then 0
  else (2 * (countTP yt yp : ℚ))
    / (2 * (countTP yt yp : ℚ) + (countFP yt yp : ℚ) + (countFN yt yp : ℚ))

/-- From the Collaborative.ipynb "Model Performance" cell: binarize both the
actual and the predicted ratings at the threshold and compute the four
confusion-matrix metrics `(accuracy, precision, recall, f1)`. -/
def classificationMetrics (yTrue yPred : List ℚ) (threshold : ℚ) : ℚ × ℚ × ℚ × ℚ :=
  let yt := binarize threshold yTrue
  let yp := binarize threshold yPred
  (accuracy_score yt yp, precision_score yt yp, recall_score yt yp, f1_score yt yp)

/-- C6: each degenerate confusion matrix case is handled independently by the
single fixed zero convention, deterministically — whenever there are no
predicted positives the precision is 0, and whenever there are no actual
positives the recall is 0; the metric functions are total on `ℚ`, so no NaN
and no varying value in either case. -/
theorem classification_zero_convention (yTrue yPred : List ℚ) (threshold : ℚ) :
    (countTP (binarize threshold yTrue) (binarize threshold yPred)
        + countFP (binarize threshold yTrue) (binarize threshold yPred) = 0 →
      (classificationMetrics yTrue yPred threshold).2.1 = 0) ∧
    (countTP (binarize threshold yTrue) (binarize threshold yPred)
        + countFN (binarize threshold yTrue) (binarize threshold yPred) = 0 →
      (classificationMetrics yTrue yPred threshold).2.2.1 = 0) := by
  constructor
  · intro h0
    simp [classificationMetrics, precision_score, h0]
  · intro h0
    simp [classificationMetrics, recall_score, h0]

theorem classification_zero_convention_witness :
    (classificationMetrics [5, 4] [2, 3] (7 / 2)).2.1 = 0 ∧
    (classificationMetrics [2, 1] [4, 5] (7 / 2)).2.2.1 = 0 :=
  ⟨(classification_zero_convention [5, 4] [2, 3] (7 / 2)).1
      (by norm_num [countTP, countFP, binarize, List.zip]),
   (classification_zero_convention [2, 1] [4, 5] (7 / 2)).2
      (by norm_num [countTP, countFN, binarize, List.zip])⟩

/-- C8: on the toy test set with actual ratings `[5, 2]`, predictions
`[4, 4.5]` and threshold `3.5`, the binarized labels are `[1,0]` / `[1,1]`
and the metrics come out as accuracy 1/2, precision 1/2, recall 1, f1 2/3. -/
theorem classificationMetrics_toy :
    classificationMetrics [5, 2] [4, 9 / 2] (7 / 2) = (1 / 2, 1 / 2, 1, 2 / 3) := by
  norm_num [classificationMetrics, binarize, accuracy_score, precision_score,
    recall_score, f1_score, countTP, countFP, countFN, List.zip]

/-- From Collaborative.ipynb: `predictions = svd.test(testset)` followed by
`y_true = [pred.r_ui ...]`, `y_pred = [pred.est ...]` — every test triple is
scored through `predict` (fallback included), none is filtered out. -/
def testPredictions (m : SVDModel) (test : List Rating) : List (ℚ × ℚ) :=
  test.map (fun r => (r.rating, predict m r.userId r.movieId))

/-- From the Collaborative.ipynb evaluation cell: the mean squared error
(whose square root the code reports as RMSE — the square root is kept
implicit in the rational embedding) and the mean absolute error, each a mean
over the whole prediction list. -/
def regressionMetrics (m : SVDModel) (test : List Rating) : ℚ × ℚ :=
  let ps := testPredictions m test
  ((ps.map (fun p => (p.2 - p.1) ^ 2)).sum / (ps.length : ℚ),
   (ps.map (fun p => |p.2 - p.1|)).sum / (ps.length : ℚ))

theorem sum_map_get (f : Rating → ℚ) :
    ∀ l : List Rating, (l.map f).sum = ∑ i : Fin l.length, f (l.get i)
  | [] => by simp
  | x :: xs => by
      rw [List.map_cons, List.sum_cons, sum_map_get f xs]
      simp [Fin.sum_univ_succ]

/-- C7: regression metrics — `mse · n` equals the sum over every index of the
test set of the squared prediction error, and `mae · n` the sum of absolute
errors: each of the `n` test ratings contributes exactly once, ratings with
unknown user or item included through the total fallback `predict`, and no
rating is excluded from the mean. -/
theorem regressionMetrics_spec (m : SVDModel) (test : List Rating)
    (h : test ≠ []) :
    (regressionMetrics m test).1 * (test.length : ℚ)
        = ∑ i : Fin test.length,
            (predict m (test.get i).userId (test.get i).movieId - (test.get i).rating) ^ 2 ∧
    (regressionMetrics m test).2 * (test.length : ℚ)
        = ∑ i : Fin test.length,
            |predict m (test.get i).userId (test.get i).movieId - (test.get i).rating| ∧
    (testPredictions m test).length = test.length := by
  have hn : (test.length : ℚ) ≠ 0 :=
    Nat.cast_ne_zero.mpr (Nat.pos_iff_ne_zero.mp (List.length_pos.mpr h))
  have hmap₁ : (testPredictions m test).map (fun p => (p.2 - p.1) ^ 2)
      = test.map (fun r => (predict m r.userId r.movieId - r.rating) ^ 2) := by
    simp [testPredictions]
  have hmap₂ : (testPredictions m test).map (fun p => |p.2 - p.1|)
      = test.map (fun r => |predict m r.userId r.movieId - r.rating|) := by
    simp [testPredictions]
  refine ⟨?_, ?_, by simp [testPredictions]⟩
  · rw [regressionMetrics]
    simp only [testPredictions, List.length_map] at hmap₁ ⊢
    rw [hmap₁, div_mul_cancel₀ _ hn,
      sum_map_get (fun r => (predict m r.userId r.movieId - r.rating) ^ 2) test]
  · rw [regressionMetrics]
    simp only [testPredictions, List.length_map] at hmap₂ ⊢
    rw [hmap₂, div_mul_cancel₀ _ hn,
      sum_map_get (fun r => |predict m r.userId r.movieId - r.rating|) test]

/-- A concrete test set containing a rating by the unknown user 7. -/
def test₀ : List Rating := [⟨1, 2, 4⟩, ⟨7, 2, 3⟩]

theorem regressionMetrics_spec_witness :
    (regressionMetrics m₀ test₀).1 * (test₀.length : ℚ)
        = ∑ i : Fin test₀.length,
            (predict m₀ (test₀.get i).userId (test₀.get i).movieId - (test₀.get i).rating) ^ 2 ∧
    (regressionMetrics m₀ test₀).2 * (test₀.length : ℚ)
        = ∑ i : Fin test₀.length,
            |predict m₀ (test₀.get i).userId (test₀.get i).movieId - (test₀.get i).rating| ∧
    (testPredictions m₀ test₀).length = test₀.length :=
  regressionMetrics_spec m₀ test₀ (by simp [test₀])

/-- A row of the ratings DataFrame seen by the collaborative recommender:
`userId`, `movieId`, `rating`, `title`. -/
structure DfRow where
  userId : Nat
  movieId : Nat
  rating : ℚ
  title : String
deriving DecidableEq, Repr

/-- `df[df['userId'] == user_id]['movieId'].tolist()`. -/
def ratedMovies (uid : Nat) (df : List DfRow) : List Nat :=
  (df.filter (fun row => row.userId == uid)).map DfRow.movieId

/-- `df['movieId'].unique()` — deduplication keeping first occurrences. -/
def allMovies : List DfRow → List Nat
  | [] => []
  | row :: rest => row.movieId :: (allMovies rest).filter (fun mv => mv != row.movieId)

/-- `to_predict = [m for m in all_movies if m not in rated_movies]`. -/
def toPredict (uid : Nat) (df : List DfRow) : List Nat :=
  (allMovies df).filter (fun mv => decide (mv ∉ ratedMovies uid df))

/-- `sorted(predictions, key=lambda x: x.est, reverse=True)[:n]` — the
per-movie predictions, stably sorted by descending predicted rating, first
`n` kept. -/
def topPreds (m : SVDModel) (uid : Nat) (df : List DfRow) (n : Nat) : List (Nat × ℚ) :=
  (((toPredict uid df).map (fun mv => (mv, predict m uid mv))).mergeSort
    (fun a b => decide (b.2 ≤ a.2))).take n

/-- `movie_map.get(pred.iid, 'Unknown')` — title of a movieId, defaulting to
`"Unknown"`. -/
def movieTitle (df : List DfRow) (mv : Nat) : String :=
  match df.find? (fun row => row.movieId == mv) with
  | some row => row.title
  | none => "Unknown"

/-- `round(pred.est, 2)` — rounding a predicted rating to two decimals. -/
def round2 (x : ℚ) : ℚ := (round (100 * x) : ℤ) / 100

/-- From Collaborative.ipynb: `get_top_n_recommendations(user_id, df, model, n)`
returns the `(title, rounded score)` pairs of the top predictions. -/
def get_top_n_recommendations (uid : Nat) (df : List DfRow) (m : SVDModel) (n : Nat) :
    List (String × ℚ) :=
  (topPreds m uid df n).map (fun p => (movieTitle df p.1, round2 p.2))

theorem round2_mono {x y : ℚ} (h : x ≤ y) : round2 x ≤ round2 y := by
  rw [round2, round2]
  have hr : round (100 * x) ≤ round (100 * y) := by
    rw [round_eq, round_eq]
    exact Int.floor_le_floor (by linarith)
  have : ((round (100 * x) : ℤ) : ℚ) ≤ ((round (100 * y) : ℤ) : ℚ) := by
    exact_mod_cast hr
  linarith

theorem descPairs_trans :
    ∀ a b c : Nat × ℚ, decide (b.2 ≤ a.2) = true → decide (c.2 ≤ b.2) = true →
      decide (c.2 ≤ a.2) = true := by
  intro a b c hab hbc
  simp only [decide_eq_true_eq] at *
  exact le_trans hbc hab

theorem descPairs_total :
    ∀ a b : Nat × ℚ, (decide (b.2 ≤ a.2) || decide (a.2 ≤ b.2)) = true := by
  intro a b
  simpa using le_total b.2 a.2

/-- C10: `get_top_n_recommendations` maps the sorted top predictions to
`(title, rounded score)` pairs, returns at most `n` of them, both the
underlying predictions and the returned rounded scores are in non-increasing
order of predicted rating, and no recommended movie is one the user has
already rated in the dataset. -/
theorem get_top_n_spec (uid : Nat) (df : List DfRow) (m : SVDModel) (n : Nat) :
    get_top_n_recommendations uid df m n
        = (topPreds m uid df n).map (fun p => (movieTitle df p.1, round2 p.2)) ∧
    (get_top_n_recommendations uid df m n).length ≤ n ∧
    (topPreds m uid df n).Pairwise (fun a b => b.2 ≤ a.2) ∧
    (get_top_n_recommendations uid df m n).Pairwise (fun a b => b.2 ≤ a.2) ∧
    ∀ p ∈ topPreds m uid df n, p.1 ∉ ratedMovies uid df := by
  have hsorted : (topPreds m uid df n).Pairwise (fun a b : Nat × ℚ => b.2 ≤ a.2) := by
    have h := List.sorted_mergeSort descPairs_trans descPairs_total
      ((toPredict uid df).map (fun mv => (mv, predict m uid mv)))
    have h2 : (((toPredict uid df).map (fun mv => (mv, predict m uid mv))).mergeSort
        (fun a b => decide (b.2 ≤ a.2))).Pairwise (fun a b : Nat × ℚ => b.2 ≤ a.2) := by
      refine h.imp ?_
      intro a b hab
      simpa using hab
    exact h2.sublist (List.take_sublist _ _)
  refine ⟨rfl, ?_, hsorted, ?_, ?_⟩
  · calc (get_top_n_recommendations uid df m n).length
        = (topPreds m uid df n).length := by
          simp [get_top_n_recommendations]
      _ ≤ n := by
          simp only [topPreds, List.length_take]
          exact min_le_left _ _
  · exact hsorted.map _ (fun a b hab => round2_mono hab)
  · intro p hp
    have hmem : p ∈ ((toPredict uid df).map (fun mv => (mv, predict m uid mv))).mergeSort
        (fun a b => decide (b.2 ≤ a.2)) := List.mem_of_mem_take hp
    have hmem2 : p ∈ (toPredict uid df).map (fun mv => (mv, predict m uid mv)) :=
      (List.mergeSort_perm _ _).mem_iff.mp hmem
    obtain ⟨mv, hmv, hpe⟩ := List.mem_map.mp hmem2
    have hfil := List.mem_filter.mp hmv
    have : mv ∉ ratedMovies uid df := by
      simpa using hfil.2
    rw [← hpe]
    exact this

/-- A concrete one-row DataFrame: user 1 rated movie 2; user 3 rated
nothing. -/
def df₀ : List DfRow := [⟨1, 2, 5, "A"⟩]

theorem get_top_n_spec_witness :
    get_top_n_recommendations 3 df₀ m₀ 1
        = (topPreds m₀ 3 df₀ 1).map (fun p => (movieTitle df₀ p.1, round2 p.2)) ∧
    (get_top_n_recommendations 3 df₀ m₀ 1).length ≤ 1 ∧
    (topPreds m₀ 3 df₀ 1).Pairwise (fun a b => b.2 ≤ a.2) ∧
    (get_top_n_recommendations 3 df₀ m₀ 1).Pairwise (fun a b => b.2 ≤ a.2) ∧
    (2, predict m₀ 3 2).1 ∉ ratedMovies 3 df₀ :=
  have base := get_top_n_spec 3 df₀ m₀ 1
  ⟨base.1, base.2.1, base.2.2.1, base.2.2.2.1,
    base.2.2.2.2 (2, predict m₀ 3 2) (by
      rw [topPreds, List.take_of_length_le (by rw [List.length_mergeSort]; simp [toPredict, allMovies, df₀, ratedMovies])]
      exact (List.mergeSort_perm _ _).mem_iff.mpr (by
        simp [toPredict, allMovies, df₀, ratedMovies]))⟩

/-- A candidate movie row produced by the content-based KNN step of the
hybrid notebook: `movieId`, `title`, `vote_average`, `genres`. -/
structure MovieRow where
  movieId : Nat
  title : String
  voteAverage : ℚ
  genres : String
deriving DecidableEq, Repr

/-- One row of the hybrid recommendation table: the movie together with its
`svd_score` and `hybrid_score` columns. -/
structure HybridRec where
  movie : MovieRow
  svdScore : ℚ
  hybridScore : ℚ
deriving DecidableEq, Repr

/-- From Hybrid.ipynb `recommend_hybrid`: its KNN candidate rows (the
content-based similarity engine is the consumed collaborator providing them)
get `svd_score = svd_model.predict(user_id, movieId).est` and
`hybrid_score = (vote_average + svd_score) / 2`, are sorted by hybrid score
descending, and the head `n` is returned. -/
def recommend_hybrid (m : SVDModel) (uid : Nat) (candidates : List MovieRow) (n : Nat) :
    List HybridRec :=
  ((candidates.map (fun c =>
      { movie := c
        svdScore := predict m uid c.movieId
        hybridScore := (c.voteAverage + predict m uid c.movieId) / 2 : HybridRec })).mergeSort
    (fun a b => decide (b.hybridScore ≤ a.hybridScore))).take n

/-- C9: every recommended movie's hybrid score is the plain arithmetic mean
`(vote_average + svd_score) / 2` of the raw popularity score and the raw
clipped SVD prediction — neither operand is rescaled before averaging. -/
theorem recommend_hybrid_score (m : SVDModel) (uid : Nat)
    (candidates : List MovieRow) (n : Nat) (rec : HybridRec)
    (h : rec ∈ recommend_hybrid m uid candidates n) :
    rec.svdScore = predict m uid rec.movie.movieId ∧
    rec.hybridScore = (rec.movie.voteAverage + rec.svdScore) / 2 := by
  have hmem : rec ∈ (candidates.map (fun c =>
      { movie := c
        svdScore := predict m uid c.movieId
        hybridScore := (c.voteAverage + predict m uid c.movieId) / 2 : HybridRec })).mergeSort
      (fun a b => decide (b.hybridScore ≤ a.hybridScore)) := List.mem_of_mem_take h
  have hmem2 := (List.mergeSort_perm _ _).mem_iff.mp hmem
  obtain ⟨c, _, hce⟩ := List.mem_map.mp hmem2
  rw [← hce]
  exact ⟨rfl, rfl⟩

/-- A concrete one-element candidate list for the hybrid recommender. -/
def candidates₀ : List MovieRow := [⟨2, "A", 4, "g"⟩]

theorem recommend_hybrid_score_witness :
    (⟨⟨2, "A", 4, "g"⟩, predict m₀ 1 2, ((4 : ℚ) + predict m₀ 1 2) / 2⟩ : HybridRec).svdScore
        = predict m₀ 1 2 ∧
    (⟨⟨2, "A", 4, "g"⟩, predict m₀ 1 2, ((4 : ℚ) + predict m₀ 1 2) / 2⟩ : HybridRec).hybridScore
        = (((4 : ℚ)) + predict m₀ 1 2) / 2 :=
  recommend_hybrid_score m₀ 1 candidates₀ 1
    ⟨⟨2, "A", 4, "g"⟩, predict m₀ 1 2, ((4 : ℚ) + predict m₀ 1 2) / 2⟩ (by
      rw [recommend_hybrid,
        List.take_of_length_le (by rw [List.length_mergeSort]; simp [candidates₀])]
      exact (List.mergeSort_perm _ _).mem_iff.mpr (by simp [candidates₀]))

end MovieRec
